import Mathlib

/-!
Shallow embedding of the query/cache/result-shaping layer of the
enterprise-databricks-apps repository (src/data_layer.py, src/app.py),
with the claims of the specification settled as theorems.

Modelling conventions:
* a pandas cell is a `Cell`: an exact numeric value (`num`, over ℚ — floating
  point NaN/inf literals are outside the numeric domain of the model), the
  float missing value `nan`, a python string `str`, or python `None`
  (`pynone`);
* a pandas column is a `Col`: a dtype flag (`numericDtype = true` for a native
  numeric dtype such as int64/float64) plus its list of cells; a DataFrame
  (`DF`) is an ordered list of named columns;
* environment variables are modelled by their python truthiness where only
  presence matters, and by `Option String` where the value matters;
* fallible operations return `Except`.
-/

namespace Spec2Proof

/-! ### Cells, columns, DataFrames -/

inductive Cell where
  | num (q : ℚ)
  | nan
  | str (s : String)
  | pynone
  deriving DecidableEq, Repr

/-- A pandas column: dtype flag (`true` = native numeric dtype) and cells. -/
structure Col where
  numericDtype : Bool
  cells : List Cell
  deriving DecidableEq, Repr

/-- A pandas DataFrame: ordered named columns. -/
structure DF where
  cols : List (String × Col)
  deriving DecidableEq, Repr

/-! ### Numeric-literal parsing (`pd.to_numeric` on strings)

Decimal literals: optional sign, digits with an optional fractional part and
an optional exponent, surrounding whitespace tolerated. -/

def charDigit (c : Char) : Option ℕ :=
  if '0' ≤ c ∧ c ≤ '9' then some (c.toNat - 48) else Option.none

def digitsVal (l : List Char) : Option ℕ :=
  l.foldl
    (fun acc c =>
      match acc, charDigit c with
      | some n, some d => some (n * 10 + d)
      | _, _ => Option.none)
    (some 0)

/-- ASCII whitespace accepted around a numeric literal. -/
def isSpaceChar (c : Char) : Bool :=
  c = ' ' || c = '\t' || c = '\n' || c = '\r'

/-- Strip leading and trailing whitespace from a character list. -/
def trimChars (l : List Char) : List Char :=
  ((l.dropWhile isSpaceChar).reverse.dropWhile isSpaceChar).reverse

/-- Unsigned mantissa: digits, optionally a decimal point and more digits;
at least one digit in total. -/
def parseMantissa (l : List Char) : Option ℚ :=
  let p := l.span fun c => (charDigit c).isSome
  match p.2 with
  | [] => if p.1 = [] then Option.none else (digitsVal p.1).map fun n => (n : ℚ)
  | c :: fp =>
      if c = '.' then
        if fp.all (fun d => (charDigit d).isSome) ∧ ¬(p.1 = [] ∧ fp = []) then
          match digitsVal p.1, digitsVal fp with
          | some a, some b => some ((a : ℚ) + (b : ℚ) / (10 : ℚ) ^ fp.length)
          | _, _ => Option.none
        else Option.none
      else Option.none

/-- Signed exponent part (after `e`/`E`): nonempty digits with optional sign. -/
def parseExp (l : List Char) : Option ℤ :=
  let core : List Char → Option ℤ := fun m =>
    if m = [] then Option.none else (digitsVal m).map Int.ofNat
  match l with
  | '+' :: r => core r
  | '-' :: r => (core r).map Neg.neg
  | _ => core l

/-- Parse a python string as a number, the way the pandas numeric coercion
does for decimal literals; `Option.none` on failure. -/
def parseNumStr (s : String) : Option ℚ :=
  let l := trimChars s.data
  let p := l.span fun c => ¬(c = 'e' ∨ c = 'E')
  let mval :=
    match p.1 with
    | '+' :: r => parseMantissa r
    | '-' :: r => (parseMantissa r).map Neg.neg
    | m => parseMantissa m
  match p.2 with
  | [] => mval
  | _ :: ex =>
      match mval, parseExp ex with
      | some m, some e => some (m * (10 : ℚ) ^ e)
      | _, _ => Option.none

/-! ### The numeric normalizer -/

/-- `pd.to_numeric(_, errors='coerce')` on one cell: numbers pass through,
`None` becomes NaN, strings parse or become NaN. -/
def coerceCell : Cell → Cell
  | .num q => .num q
  | .nan => .nan
  | .pynone => .nan
  | .str s =>
      match parseNumStr s with
      | some q => .num q
      | Option.none => .nan

/-- pandas `isna`: NaN and None are the missing values. -/
def isNA : Cell → Bool
  | .nan => true
  | .pynone => true
  | _ => false

/-- `converted.isna().all()`. -/
def allNA (l : List Cell) : Bool := l.all isNA

/-- A cell that the numeric coercion maps to an actual number: a native
number, or a string that parses as one. -/
def parses : Cell → Bool
  | .num _ => true
  | .str s => (parseNumStr s).isSome
  | _ => false

/-- The per-column loop body shared by `_convert_numeric_columns`
(src/data_layer.py lines 140-149) and `ensure_numeric_columns`
(src/app.py lines 214-219): an object-dtype column is coerced to numeric and
the coerced column is kept only when it is not entirely NA; native numeric
columns are untouched.  (The `try/except` around `pd.to_numeric` in the data
layer never fires for scalar cells with `errors='coerce'`, so coercion is
modelled as total.) -/
def convertCol (c : Col) : Col :=
  if c.numericDtype then c
  else
    let conv := c.cells.map coerceCell
    if allNA conv then c else ⟨true, conv⟩

/-- A cell a numeric (float) column can hold: a number or NaN. -/
def isNumLike : Cell → Bool
  | .num _ => true
  | .nan => true
  | _ => false

/-- A cell that dtype inference accepts into a numeric column: num, NaN or None. -/
def numOrNull : Cell → Bool
  | .num _ => true
  | .nan => true
  | .pynone => true
  | _ => false

/-- Storing `None` in a float column turns it into NaN. -/
def noneToNan : Cell → Cell
  | .pynone => .nan
  | c => c

/-- dtype inference of `pd.DataFrame` on a plain python list: the column is
numeric when it is nonempty, every value is a number, NaN or None, and at
least one value is an actual number or NaN (an all-`None` or empty list stays
object dtype). -/
def inferNumeric (l : List Cell) : Bool :=
  !l.isEmpty && l.all numOrNull && l.any isNumLike

def inferCol (l : List Cell) : Col :=
  if inferNumeric l then ⟨true, l.map noneToNan⟩ else ⟨false, l⟩

/-- Python dict update: key present → value replaced in place (keeping the
key's original position), key absent → appended. -/
def dictInsert (acc : List (String × List Cell)) (n : String) (cs : List Cell) :
    List (String × List Cell) :=
  if acc.any (fun p => p.1 = n) then
    acc.map fun p => if p.1 = n then (n, cs) else p
  else acc ++ [(n, cs)]

/-- `df.to_dict('list')`: a python dict from column name to the column's value
list; first-occurrence order, a later duplicate column name overwrites the
value. -/
def toDict (df : DF) : List (String × List Cell) :=
  df.cols.foldl (fun acc p => dictInsert acc p.1 p.2.cells) []

/-- `pd.DataFrame(df.to_dict('list'))` (src/data_layer.py line 138): rebuild
the DataFrame from plain python lists, re-inferring each column's dtype. -/
def roundtrip (df : DF) : DF :=
  ⟨(toDict df).map fun p => (p.1, inferCol p.2)⟩

/-- `DatabricksDataLayer._convert_numeric_columns` (src/data_layer.py lines
135-150): fresh copy through `to_dict('list')`, then per-column numeric
conversion. -/
def convert_numeric_columns (df : DF) : DF :=
  ⟨(roundtrip df).cols.map fun p => (p.1, convertCol p.2)⟩

/-- `ensure_numeric_columns` (src/app.py lines 211-219): `df.copy()` (value
identity here), then the same per-column numeric conversion. -/
def ensure_numeric_columns (df : DF) : DF :=
  ⟨df.cols.map fun p => (p.1, convertCol p.2)⟩

/-- The per-column action of `_convert_numeric_columns` on a column's value
list: dtype re-inference by the `to_dict` round-trip, then conversion. -/
def colNorm (l : List Cell) : Col :=
  convertCol (inferCol l)

/-- pandas representation invariant: a native numeric column holds only
numbers and NaN. -/
def WF (df : DF) : Prop :=
  ∀ p ∈ df.cols, p.2.numericDtype = true → p.2.cells.all isNumLike = true

instance : DecidablePred WF := fun df =>
  List.decidableBAll _ df.cols

/-- Cell equality in the spec data model's scalar domain
(numeric | string | date | null): NaN and None both denote null. -/
def cellEquiv : Cell → Cell → Bool
  | .nan, .nan => true
  | .nan, .pynone => true
  | .pynone, .nan => true
  | .pynone, .pynone => true
  | a, b => a == b

/-! ### Connection resolution -/

/-- The four recognized environment signals, by python truthiness (`true` =
the variable is set to a non-empty string). -/
structure Env where
  runtime_version : Bool
  warehouse_id : Bool
  http_path : Bool
  cluster_id : Bool
  deriving DecidableEq

/-- Body of `_detect_connection_type` (src/data_layer.py lines 46-63), the
stateless decision: `true` = SQL connector (warehouse), `false` = Databricks
Connect (cluster). -/
def detectConnectionType (e : Env) : Bool :=
  if e.runtime_version then false
  else if e.warehouse_id || e.http_path then true
  else if e.cluster_id then false
  else true

/-- `_detect_connection_type` with its memo field `_use_sql_connector`
(src/data_layer.py lines 38-63): returns the result together with the updated
field (`Option.none` models python `None`, the state set by `__init__`). -/
def detectWithMemo (memo : Option Bool) (e : Env) : Bool × Option Bool :=
  match memo with
  | some b => (b, some b)
  | Option.none => (detectConnectionType e, some (detectConnectionType e))

/-- The spec's ConnectionMode enum. -/
inductive ConnectionMode where
  | warehouseSQL
  | managedSession
  deriving DecidableEq

/-- The boolean the code returns, read as a ConnectionMode. -/
def toMode (b : Bool) : ConnectionMode :=
  if b then .warehouseSQL else .managedSession

/-- The spec's mode-resolution priority order (spec section 4.1), stated from
its words: managed-runtime marker, then warehouse identifier or explicit
wire-path, then cluster identifier, else the warehouse default. -/
def priorityMode (e : Env) : ConnectionMode :=
  if e.runtime_version then .managedSession
  else if e.warehouse_id || e.http_path then .warehouseSQL
  else if e.cluster_id then .managedSession
  else .warehouseSQL

/-! ### WarehouseSQL client construction -/

/-- Replace non-overlapping occurrences of `pat` left to right, python
`str.replace` style; `fuel` bounds the recursion (the caller passes the
input length, which suffices since each step consumes at least one
character). -/
def replaceCharsAux (pat rep : List Char) : Nat → List Char → List Char
  | _, [] => []
  | 0, s => s
  | fuel + 1, c :: rest =>
      if pat ≠ [] ∧ (c :: rest).take pat.length = pat then
        rep ++ replaceCharsAux pat rep fuel ((c :: rest).drop pat.length)
      else c :: replaceCharsAux pat rep fuel rest

/-- Python `s.replace(pat, rep)` for non-empty `pat`. -/
def pyReplace (s pat rep : String) : String :=
  ⟨replaceCharsAux pat.data rep.data s.data.length s.data⟩

/-- The environment as read by `_get_sql_connection`: `host` is
`os.getenv("DATABRICKS_HOST", "")` (unset = empty), the rest are
`os.getenv` results (`Option.none` = unset). -/
structure SqlEnv where
  host : String
  token : Option String
  warehouse_id : Option String
  http_path : Option String
  deriving DecidableEq

/-- Python truthiness of an optional string: `None` and the empty string are
falsy. -/
def pyTruthy : Option String → Bool
  | Option.none => false
  | some s => s != ""

/-- The arguments `_get_sql_connection` would hand to `sql.connect` (the
external network call). -/
structure ConnParams where
  server_hostname : String
  http_path : String
  access_token : String
  deriving DecidableEq

/-- The wire path after the fallback at src/data_layer.py lines 76-77: keep
an explicit non-empty DATABRICKS_HTTP_PATH, otherwise derive it from a
non-empty DATABRICKS_WAREHOUSE_ID. -/
def resolvedPath (e : SqlEnv) : Option String :=
  if !(pyTruthy e.http_path) && pyTruthy e.warehouse_id then
    some ("/sql/1.0/warehouses/" ++ e.warehouse_id.getD "")
  else e.http_path

/-- The host after stripping the URL schemes
(`os.getenv("DATABRICKS_HOST", "").replace("https://", "").replace("http://", "")`,
src/data_layer.py line 69). -/
def strippedHost (e : SqlEnv) : String :=
  pyReplace (pyReplace e.host "https://" "") "http://" ""

/-- `_get_sql_connection` (src/data_layer.py lines 65-92): `Except.error` is
the ValueError raised before `sql.connect` is reached; `Except.ok` carries
the arguments of the `sql.connect` call, the first point where the network
would be contacted. -/
def get_sql_connection (e : SqlEnv) : Except String ConnParams :=
  if (strippedHost e == "") || !(pyTruthy e.token) || !(pyTruthy (resolvedPath e)) then
    .error "Missing configuration: set DATABRICKS_HOST, DATABRICKS_TOKEN and DATABRICKS_WAREHOUSE_ID or DATABRICKS_HTTP_PATH"
  else
    .ok ⟨strippedHost e, (resolvedPath e).getD "", e.token.getD ""⟩

/-! ### Query executor and health check -/

/-- An error propagated from the wire protocol or the compute engine. -/
structure QueryError where
  msg : String
  deriving DecidableEq

instance : DecidableEq (Except QueryError DF) := fun x y =>
  match x, y with
  | .error a, .error b => decidable_of_iff (a = b) (by simp)
  | .ok a, .ok b => decidable_of_iff (a = b) (by simp)
  | .error _, .ok _ => isFalse fun hh => Except.noConfusion hh
  | .ok _, .error _ => isFalse fun hh => Except.noConfusion hh

/-- `_execute_query` (src/data_layer.py lines 119-133), with the two backends
abstracted: `sqlFetch` is the DataFrame assembled from the SQL-connector
cursor (columns from the descriptors, rows from `fetchall`), `sparkFetch` is
the `spark.sql(query).toPandas()` materialization.  The SQL-connector branch
passes its result through `_convert_numeric_columns`; the Databricks Connect
branch returns its result directly. -/
def execute_query (useSql : Bool) (sqlFetch sparkFetch : Except QueryError DF) :
    Except QueryError DF :=
  if useSql then sqlFetch.map convert_numeric_columns else sparkFetch

/-- `health_check` (src/data_layer.py lines 342-348): run the probe query,
`true` on success, every exception swallowed into `false`. -/
def health_check (useSql : Bool) (sqlFetch sparkFetch : Except QueryError DF) :
    Bool :=
  match execute_query useSql sqlFetch sparkFetch with
  | .ok _ => true
  | .error _ => false

/-! ### Result cache -/

/-- Modelled from the spec: the Result Cache state behind the
`st.cache_data(ttl=3600)` decorators (spec section 4.4) — the caching
primitive itself is library code outside this repository.  An entry maps a
key to its creation timestamp and cached value. -/
structure CacheState (K V : Type) where
  entries : K → Option (Nat × V)

/-- Modelled from the spec: `getOrCompute(metricId+params, ttl, compute)`
(spec section 4.4).  On a hit with age < ttl return the cached value without
recomputation; on a stale hit or a miss invoke `compute`, store the result
with a fresh timestamp and return it.  The returned Bool records whether
`compute` was invoked. -/
def getOrCompute {K V : Type} [DecidableEq K] (c : CacheState K V)
    (now ttl : Nat) (k : K) (compute : Unit → V) :
    V × CacheState K V × Bool :=
  match c.entries k with
  | some (t, v) =>
      if now - t < ttl then (v, c, false)
      else
        let v2 := compute ()
        (v2, ⟨fun k2 => if k2 = k then some (now, v2) else c.entries k2⟩, true)
  | Option.none =>
      let v2 := compute ()
      (v2, ⟨fun k2 => if k2 = k then some (now, v2) else c.entries k2⟩, true)

/-- The TTL attached to every Metric Catalog entry
(`st.cache_data(ttl=3600)`, e.g. src/data_layer.py line 156). -/
def metricTTL : Nat := 3600

/-! ### Concrete tables used as witnesses and counterexamples -/

/-- A table with a native numeric column, a textual object column and a
numeric-looking object column. -/
def exFrameDF : DF :=
  ⟨[("a", ⟨true, [Cell.num 1, Cell.nan]⟩),
    ("b", ⟨false, [Cell.str "x", Cell.pynone]⟩),
    ("c", ⟨false, [Cell.str "5"]⟩)]⟩

/-- A table with a single object-dtype column holding one float NaN. -/
def exNanDF : DF := ⟨[("x", ⟨false, [Cell.nan]⟩)]⟩

/-- A table with two columns sharing the name "a" (reachable through the
ad-hoc query path, e.g. `SELECT 1 AS a, 2 AS a`: the cursor-description
DataFrame keeps both). -/
def exDupDF : DF :=
  ⟨[("a", ⟨false, [Cell.str "1"]⟩), ("a", ⟨false, [Cell.str "2"]⟩)]⟩

/-! ### Helper lemmas -/

theorem isNA_coerceCell (c : Cell) : isNA (coerceCell c) = !parses c := by
  cases c with
  | str s => cases h : parseNumStr s <;> simp [coerceCell, h, isNA, parses]
  | _ => simp [coerceCell, isNA, parses]

theorem allNA_coerce (l : List Cell) : allNA (l.map coerceCell) = !l.any parses := by
  induction l with
  | nil => rfl
  | cons c t ih =>
      simp only [List.map_cons, allNA, List.all_cons, List.any_cons, Bool.not_or]
      rw [isNA_coerceCell]
      simp only [allNA] at ih
      rw [ih]

theorem isNumLike_coerceCell (c : Cell) : isNumLike (coerceCell c) = true := by
  cases c with
  | str s => cases h : parseNumStr s <;> simp [coerceCell, h, isNumLike]
  | _ => simp [coerceCell, isNumLike]

theorem noneToNan_of_numLike (c : Cell) (h : isNumLike c = true) : noneToNan c = c := by
  cases c <;> simp_all [isNumLike, noneToNan]

theorem numOrNull_of_numLike (c : Cell) (h : isNumLike c = true) : numOrNull c = true := by
  cases c <;> simp_all [isNumLike, numOrNull]

theorem isNumLike_noneToNan_of_numOrNull (c : Cell) (h : numOrNull c = true) :
    isNumLike (noneToNan c) = true := by
  cases c <;> simp_all [numOrNull, noneToNan, isNumLike]

theorem cellEquiv_refl (c : Cell) : cellEquiv c c = true := by
  cases c <;> simp [cellEquiv]

theorem cellEquiv_noneToNan_left (c : Cell) : cellEquiv (noneToNan c) c = true := by
  cases c <;> simp [noneToNan, cellEquiv]

theorem cellEquiv_noneToNan_right (c : Cell) : cellEquiv c (noneToNan c) = true := by
  cases c <;> simp [noneToNan, cellEquiv]

theorem coerce_eq_noneToNan_of_numOrNull (c : Cell) (h : numOrNull c = true) :
    coerceCell c = noneToNan c := by
  cases c <;> simp_all [numOrNull, coerceCell, noneToNan]

theorem map_noneToNan_id (l : List Cell) (h : l.all isNumLike = true) :
    l.map noneToNan = l := by
  induction l with
  | nil => rfl
  | cons c t ih =>
      simp only [List.all_cons, Bool.and_eq_true] at h
      simp [noneToNan_of_numLike c h.1, ih h.2]

theorem any_numLike_of_all (l : List Cell) (h : l.all isNumLike = true) (hne : l ≠ []) :
    l.any isNumLike = true := by
  cases l with
  | nil => exact absurd rfl hne
  | cons c t => simp_all [List.all_cons, List.any_cons]

theorem inferNumeric_spec (l : List Cell) (h : inferNumeric l = true) :
    l ≠ [] ∧ l.all numOrNull = true ∧ l.any isNumLike = true := by
  unfold inferNumeric at h
  simp only [Bool.and_eq_true, Bool.not_eq_true'] at h
  refine ⟨?_, h.1.2, h.2⟩
  intro hnil
  subst hnil
  simp at h

theorem inferNumeric_of_numLike (l : List Cell) (h : l.all isNumLike = true)
    (hne : l ≠ []) : inferNumeric l = true := by
  unfold inferNumeric
  simp only [Bool.and_eq_true, Bool.not_eq_true']
  refine ⟨⟨?_, ?_⟩, any_numLike_of_all l h hne⟩
  · cases l with
    | nil => exact absurd rfl hne
    | cons c t => rfl
  · rw [List.all_eq_true] at h ⊢
    intro x hx
    exact numOrNull_of_numLike x (h x hx)

theorem colNorm_of_inferNumeric (l : List Cell) (h : inferNumeric l = true) :
    colNorm l = ⟨true, l.map noneToNan⟩ := by
  simp [colNorm, inferCol, h, convertCol]

theorem colNorm_of_not_inferNumeric (l : List Cell) (h : inferNumeric l = false) :
    colNorm l = convertCol ⟨false, l⟩ := by
  simp [colNorm, inferCol, h]

theorem colIdem (l : List Cell) : colNorm (colNorm l).cells = colNorm l := by
  cases hinf : inferNumeric l with
  | true =>
      rw [colNorm_of_inferNumeric l hinf]
      obtain ⟨hne, hnull, -⟩ := inferNumeric_spec l hinf
      have hall : (l.map noneToNan).all isNumLike = true := by
        rw [List.all_eq_true]
        intro x hx
        obtain ⟨c, hc, rfl⟩ := List.mem_map.mp hx
        exact isNumLike_noneToNan_of_numOrNull c (List.all_eq_true.mp hnull c hc)
      have wne : l.map noneToNan ≠ [] := by
        cases l with
        | nil => exact absurd rfl hne
        | cons c t => simp
      show colNorm (l.map noneToNan) = _
      rw [colNorm_of_inferNumeric _ (inferNumeric_of_numLike _ hall wne)]
      rw [map_noneToNan_id _ hall]
  | false =>
      rw [colNorm_of_not_inferNumeric l hinf]
      cases hna : allNA (l.map coerceCell) with
      | true =>
          have hconv : convertCol ⟨false, l⟩ = ⟨false, l⟩ := by
            simp [convertCol, hna]
          rw [hconv]
          show colNorm l = _
          rw [colNorm_of_not_inferNumeric l hinf, hconv]
      | false =>
          have hconv : convertCol ⟨false, l⟩ = ⟨true, l.map coerceCell⟩ := by
            simp [convertCol, hna]
          rw [hconv]
          have hall : (l.map coerceCell).all isNumLike = true := by
            rw [List.all_eq_true]
            intro x hx
            obtain ⟨c, hc, rfl⟩ := List.mem_map.mp hx
            exact isNumLike_coerceCell c
          have wne : l.map coerceCell ≠ [] := by
            intro hnil
            rw [hnil] at hna
            simp [allNA] at hna
          show colNorm (l.map coerceCell) = _
          rw [colNorm_of_inferNumeric _ (inferNumeric_of_numLike _ hall wne)]
          rw [map_noneToNan_id _ hall]


theorem dictInsert_names (acc : List (String × List Cell)) (n : String)
    (cs : List Cell) :
    (dictInsert acc n cs).map Prod.fst =
      if acc.any (fun p => p.1 = n) then acc.map Prod.fst
      else acc.map Prod.fst ++ [n] := by
  unfold dictInsert
  split
  · rw [List.map_map]
    apply List.map_congr_left
    intro p hp
    by_cases h : p.1 = n <;> simp [h]
  · simp

theorem dictInsert_nodup (acc : List (String × List Cell)) (n : String)
    (cs : List Cell) (h : (acc.map Prod.fst).Nodup) :
    ((dictInsert acc n cs).map Prod.fst).Nodup := by
  rw [dictInsert_names]
  split
  · exact h
  · rename_i hany
    rw [List.nodup_append]
    refine ⟨h, List.nodup_singleton n, ?_⟩
    intro a ha hb
    rw [List.mem_singleton] at hb
    subst hb
    obtain ⟨p, hp, hpa⟩ := List.mem_map.mp ha
    exact hany (List.any_eq_true.mpr ⟨p, hp, by simp [hpa]⟩)

theorem foldl_dictInsert_nodup (l : List (String × Col))
    (acc : List (String × List Cell)) (h : (acc.map Prod.fst).Nodup) :
    ((l.foldl (fun acc p => dictInsert acc p.1 p.2.cells) acc).map Prod.fst).Nodup := by
  induction l generalizing acc with
  | nil => exact h
  | cons p t ih => exact ih _ (dictInsert_nodup acc p.1 p.2.cells h)

theorem toDict_names_nodup (df : DF) : ((toDict df).map Prod.fst).Nodup :=
  foldl_dictInsert_nodup df.cols [] List.nodup_nil

theorem foldl_dictInsert_of_disjoint (l : List (String × Col))
    (acc : List (String × List Cell))
    (hnd : (l.map Prod.fst).Nodup)
    (hdis : ∀ a ∈ acc.map Prod.fst, a ∉ l.map Prod.fst) :
    l.foldl (fun acc p => dictInsert acc p.1 p.2.cells) acc =
      acc ++ l.map (fun p => (p.1, p.2.cells)) := by
  induction l generalizing acc with
  | nil => simp
  | cons p t ih =>
      rw [List.foldl_cons]
      have hnotmem : acc.any (fun q => q.1 = p.1) = false := by
        rw [Bool.eq_false_iff]
        intro hany
        obtain ⟨q, hq, hqp⟩ := List.any_eq_true.mp hany
        have : q.1 ∈ acc.map Prod.fst := List.mem_map.mpr ⟨q, hq, rfl⟩
        have hq1 : q.1 = p.1 := by simpa using hqp
        exact hdis q.1 this (by simp [hq1])
      have hins : dictInsert acc p.1 p.2.cells = acc ++ [(p.1, p.2.cells)] := by
        unfold dictInsert
        rw [hnotmem]
        simp
      rw [hins]
      rw [List.map_cons, List.nodup_cons] at hnd
      have ih2 := ih (acc ++ [(p.1, p.2.cells)]) hnd.2 ?_
      · rw [ih2]
        simp
      · intro a ha
        rw [List.map_append, List.mem_append] at ha
        rcases ha with ha | ha
        · intro hmem
          exact hdis a ha (by simp [hmem])
        · simp at ha
          subst ha
          exact hnd.1
      
theorem toDict_of_nodup (df : DF) (h : (df.cols.map Prod.fst).Nodup) :
    toDict df = df.cols.map fun p => (p.1, p.2.cells) := by
  unfold toDict
  rw [foldl_dictInsert_of_disjoint df.cols [] h (by simp)]
  simp

theorem convert_cols_eq (df : DF) :
    (convert_numeric_columns df).cols =
      (toDict df).map fun p => (p.1, colNorm p.2) := by
  unfold convert_numeric_columns roundtrip colNorm
  rw [List.map_map]
  rfl

theorem convert_names_eq (df : DF) :
    (convert_numeric_columns df).cols.map Prod.fst = (toDict df).map Prod.fst := by
  rw [convert_cols_eq, List.map_map]
  rfl

theorem convert_eq_of_nodup (df : DF) (h : (df.cols.map Prod.fst).Nodup) :
    convert_numeric_columns df =
      ⟨df.cols.map fun p => (p.1, colNorm p.2.cells)⟩ := by
  have : (convert_numeric_columns df).cols = _ := convert_cols_eq df
  rw [toDict_of_nodup df h, List.map_map] at this
  cases hdf : convert_numeric_columns df
  rw [hdf] at this
  simp only at this
  rw [this]
  rfl


theorem convertCol_false (l : List Cell) :
    convertCol ⟨false, l⟩ =
      if allNA (l.map coerceCell) then ⟨false, l⟩ else ⟨true, l.map coerceCell⟩ := by
  simp [convertCol]

theorem colNorm_cells_length (l : List Cell) :
    (colNorm l).cells.length = l.length := by
  cases hinf : inferNumeric l with
  | true => rw [colNorm_of_inferNumeric l hinf]; simp
  | false =>
      rw [colNorm_of_not_inferNumeric l hinf, convertCol_false]
      split <;> simp

theorem colNorm_numeric (l : List Cell) (h : l.all isNumLike = true) :
    (colNorm l).cells = l := by
  cases l with
  | nil => rfl
  | cons c t =>
      rw [colNorm_of_inferNumeric _ (inferNumeric_of_numLike _ h (by simp))]
      exact map_noneToNan_id _ h

theorem colNorm_no_parse_equiv (l : List Cell) (h : l.any parses = false) :
    List.Forall₂ (fun a b => cellEquiv a b = true) l (colNorm l).cells := by
  cases hinf : inferNumeric l with
  | true =>
      rw [colNorm_of_inferNumeric l hinf]
      rw [List.forall₂_map_right_iff]
      exact List.forall₂_same.mpr fun a _ => cellEquiv_noneToNan_right a
  | false =>
      rw [colNorm_of_not_inferNumeric l hinf, convertCol_false]
      have hna : allNA (l.map coerceCell) = true := by
        rw [allNA_coerce, h]
        rfl
      rw [if_pos hna]
      exact List.forall₂_same.mpr fun a _ => cellEquiv_refl a

theorem colNorm_vs_convertCol (c : Col)
    (hwf : c.numericDtype = true → c.cells.all isNumLike = true) :
    List.Forall₂ (fun a b => cellEquiv a b = true)
      (colNorm c.cells).cells (convertCol c).cells := by
  obtain ⟨b, l⟩ := c
  cases b with
  | true =>
      have hall := hwf rfl
      have hcc : convertCol ⟨true, l⟩ = ⟨true, l⟩ := by simp [convertCol]
      rw [hcc]
      show List.Forall₂ _ (colNorm l).cells l
      rw [colNorm_numeric l hall]
      exact List.forall₂_same.mpr fun a _ => cellEquiv_refl a
  | false =>
      show List.Forall₂ _ (colNorm l).cells (convertCol ⟨false, l⟩).cells
      cases hinf : inferNumeric l with
      | false =>
          rw [colNorm_of_not_inferNumeric l hinf]
          exact List.forall₂_same.mpr fun a _ => cellEquiv_refl a
      | true =>
          rw [colNorm_of_inferNumeric l hinf, convertCol_false]
          obtain ⟨hne, hnull, hany⟩ := inferNumeric_spec l hinf
          have hco : l.map coerceCell = l.map noneToNan :=
            List.map_congr_left fun a ha =>
              coerce_eq_noneToNan_of_numOrNull a (List.all_eq_true.mp hnull a ha)
          rw [hco]
          cases hna : allNA (l.map noneToNan) with
          | true =>
              rw [if_pos rfl]
              show List.Forall₂ _ (l.map noneToNan) l
              rw [List.forall₂_map_left_iff]
              exact List.forall₂_same.mpr fun a _ => cellEquiv_noneToNan_left a
          | false =>
              rw [if_neg (by simp)]
              exact List.forall₂_same.mpr fun a _ => cellEquiv_refl a


/-! ### Claims -/

/-- C1 (counterexample): the claim that both connection paths return the
normalized raw result is false on the Databricks Connect path: for a raw
Spark result with an object column of numeric strings, `_execute_query`
returns it unchanged, not normalized. -/
theorem execute_query_spark_not_normalized_cex :
    execute_query false (Except.ok ⟨[("v", ⟨false, [Cell.str "10"]⟩)]⟩)
        (Except.ok ⟨[("v", ⟨false, [Cell.str "10"]⟩)]⟩) ≠
      Except.ok (convert_numeric_columns ⟨[("v", ⟨false, [Cell.str "10"]⟩)]⟩) := by
  decide

/-- C1 (amended): `_execute_query` passes the raw result through
`_convert_numeric_columns` on the WarehouseSQL (SQL connector) path only;
the ManagedSession (Databricks Connect / Spark) path returns the
materialized raw result unchanged. -/
theorem execute_query_normalizes_sql_path_only (sqlRaw sparkRaw : DF)
    (sqlFetch sparkFetch : Except QueryError DF) :
    execute_query true (Except.ok sqlRaw) sparkFetch =
      Except.ok (convert_numeric_columns sqlRaw) ∧
    execute_query false sqlFetch (Except.ok sparkRaw) = Except.ok sparkRaw :=
  ⟨rfl, rfl⟩

/-- C2: for every combination of the four recognized environment signals,
the first call to `_detect_connection_type` returns exactly the mode dictated
by the spec's priority order (managed-runtime marker, then warehouse id or
wire-path, then cluster id, else WarehouseSQL). -/
theorem detect_connection_type_priority (e : Env) :
    toMode (detectWithMemo Option.none e).1 = priorityMode e := by
  obtain ⟨a, b, c, d⟩ := e
  cases a <;> cases b <;> cases c <;> cases d <;> rfl

/-- C7: mode resolution is memoized: once a first call from the fresh state
has computed a mode, every later call returns that same mode with the memo
unchanged, regardless of the environment seen by the later call. -/
theorem detect_connection_type_memoized (e0 e1 : Env) (m : Bool) :
    (detectWithMemo (detectWithMemo Option.none e0).2 e1).1 =
      (detectWithMemo Option.none e0).1 ∧
    (detectWithMemo (some m) e1).1 = m ∧
    (detectWithMemo (some m) e1).2 = some m :=
  ⟨rfl, rfl, rfl⟩

/-- C6: the numeric normalizer `_convert_numeric_columns` is idempotent. -/
theorem convert_numeric_columns_idempotent (df : DF) :
    convert_numeric_columns (convert_numeric_columns df) =
      convert_numeric_columns df := by
  have hnd : ((convert_numeric_columns df).cols.map Prod.fst).Nodup := by
    rw [convert_names_eq]
    exact toDict_names_nodup df
  rw [convert_eq_of_nodup _ hnd]
  have key : (convert_numeric_columns df).cols.map
      (fun p => (p.1, colNorm p.2.cells)) = (convert_numeric_columns df).cols := by
    rw [convert_cols_eq df, List.map_map]
    apply List.map_congr_left
    intro p _
    simp only [Function.comp_apply]
    rw [colIdem]
  rw [key]

/-- C8: `health_check` returns a boolean and swallows every failure of the
underlying execution into `false`, returning `true` exactly when the probe
execution succeeds. -/
theorem health_check_swallows_errors (useSql : Bool)
    (sqlFetch sparkFetch : Except QueryError DF) :
    (health_check useSql sqlFetch sparkFetch = true ↔
      ∃ df, execute_query useSql sqlFetch sparkFetch = Except.ok df) ∧
    (health_check useSql sqlFetch sparkFetch = false ↔
      ∃ e, execute_query useSql sqlFetch sparkFetch = Except.error e) := by
  rcases h : execute_query useSql sqlFetch sparkFetch with e | df <;>
    simp [health_check, h]

/-- C3: an object-dtype column is replaced by its numeric coercion
(unparseable cells becoming NA) exactly when at least one value parses as a
number, and is left unchanged otherwise; in particular
`["10", "20", "bad", "30"]` becomes `[10, 20, NaN, 30]` numeric,
`["a","b","c"]` stays unchanged, and an all-null/all-empty column stays
unchanged. -/
theorem convert_numeric_partial_failure (cells : List Cell) :
    (convertCol ⟨false, cells⟩ =
      if cells.any parses = true then ⟨true, cells.map coerceCell⟩
      else ⟨false, cells⟩) ∧
    convert_numeric_columns
        ⟨[("c", ⟨false, [Cell.str "10", Cell.str "20", Cell.str "bad", Cell.str "30"]⟩)]⟩ =
      ⟨[("c", ⟨true, [Cell.num 10, Cell.num 20, Cell.nan, Cell.num 30]⟩)]⟩ ∧
    convert_numeric_columns
        ⟨[("c", ⟨false, [Cell.str "a", Cell.str "b", Cell.str "c"]⟩)]⟩ =
      ⟨[("c", ⟨false, [Cell.str "a", Cell.str "b", Cell.str "c"]⟩)]⟩ ∧
    convert_numeric_columns ⟨[("c", ⟨false, [Cell.pynone, Cell.str ""]⟩)]⟩ =
      ⟨[("c", ⟨false, [Cell.pynone, Cell.str ""]⟩)]⟩ := by
  refine ⟨?_, by decide, by decide, by decide⟩
  rw [convertCol_false]
  cases h : cells.any parses with
  | true => rw [allNA_coerce, h]; simp
  | false => rw [allNA_coerce, h]; simp

/-- C10 (counterexample): the two normalizer implementations are not the
same function: on a table whose object column holds a single float NaN, the
data-layer version (after the `to_dict` round-trip re-infers a float dtype)
returns a numeric column while the app version leaves the object column. -/
theorem normalizers_differ_cex :
    convert_numeric_columns exNanDF ≠ ensure_numeric_columns exNanDF := by
  decide


theorem str_append_data (a b : String) : (a ++ b).data = a.data ++ b.data := by
  cases a
  cases b
  rfl

theorem wire_path_ne_empty (x : String) : ("/sql/1.0/warehouses/" ++ x) ≠ "" := by
  intro h
  have hd := congrArg String.data h
  rw [str_append_data] at hd
  have h1 : "/sql/1.0/warehouses/".data ≠ [] := by decide
  have h2 : ("" : String).data = [] := rfl
  rw [h2] at hd
  exact h1 (List.append_eq_nil.mp hd).1

theorem resolvedPath_truthy (e : SqlEnv) :
    pyTruthy (resolvedPath e) = (pyTruthy e.http_path || pyTruthy e.warehouse_id) := by
  unfold resolvedPath
  cases h1 : pyTruthy e.http_path with
  | true => simp [h1]
  | false =>
      cases h2 : pyTruthy e.warehouse_id with
      | true =>
          have hne := wire_path_ne_empty (e.warehouse_id.getD "")
          simp [pyTruthy, hne]
      | false => simp [h1]

/-- C4: constructing the WarehouseSQL client raises the configuration error
before the network call (`Except.ok` is the `sql.connect` argument record)
exactly when the stripped host, the token, or the wire path (the explicit
DATABRICKS_HTTP_PATH when truthy, otherwise derived from
DATABRICKS_WAREHOUSE_ID) is missing; in particular the token-only
environment errors out. -/
theorem sql_connection_requires_config (e : SqlEnv) :
    ((∃ m, get_sql_connection e = Except.error m) ↔
      (strippedHost e = "" ∨ pyTruthy e.token = false ∨
        (pyTruthy e.http_path = false ∧ pyTruthy e.warehouse_id = false))) ∧
    (∃ m, get_sql_connection ⟨"", some "secret-value", Option.none, Option.none⟩ =
      Except.error m) := by
  have hmain : ∀ e2 : SqlEnv,
      (∃ m, get_sql_connection e2 = Except.error m) ↔
        ((strippedHost e2 == "") || !(pyTruthy e2.token)
          || !(pyTruthy (resolvedPath e2))) = true := by
    intro e2
    unfold get_sql_connection
    split
    · rename_i h
      exact iff_of_true ⟨_, rfl⟩ h
    · rename_i h
      refine iff_of_false ?_ h
      rintro ⟨m, hm⟩
      exact Except.noConfusion hm
  have hcond : ∀ e2 : SqlEnv,
      (((strippedHost e2 == "") || !(pyTruthy e2.token)
          || !(pyTruthy (resolvedPath e2))) = true) ↔
        (strippedHost e2 = "" ∨ pyTruthy e2.token = false ∨
          (pyTruthy e2.http_path = false ∧ pyTruthy e2.warehouse_id = false)) := by
    intro e2
    rw [resolvedPath_truthy]
    cases ht : pyTruthy e2.token <;> cases hp : pyTruthy e2.http_path <;>
      cases hw : pyTruthy e2.warehouse_id <;>
        by_cases hh : strippedHost e2 = "" <;> simp [hh]
  exact ⟨(hmain e).trans (hcond e), (hmain _).mpr (by decide)⟩

/-- C5: two `getOrCompute` calls with the same key within the 3600-second
TTL of the first invoke the computation exactly once (the second is a pure
cache hit returning the first result with the state unchanged); a call made
once 3600 seconds have elapsed since the entry was stored recomputes and
stores a fresh entry.  (The caching primitive `st.cache_data` is external
library code; `getOrCompute` is modelled from the spec.) -/
theorem cache_ttl_compute_once {K V : Type} [DecidableEq K]
    (c0 : CacheState K V) (k : K) (t0 t1 t2 : Nat) (f g : Unit → V)
    (hmiss : c0.entries k = Option.none)
    (h1 : t1 - t0 < metricTTL) (h2 : metricTTL ≤ t2 - t0) :
    (getOrCompute c0 t0 metricTTL k f).1 = f () ∧
    (getOrCompute c0 t0 metricTTL k f).2.2 = true ∧
    getOrCompute (getOrCompute c0 t0 metricTTL k f).2.1 t1 metricTTL k f =
      (f (), (getOrCompute c0 t0 metricTTL k f).2.1, false) ∧
    (getOrCompute (getOrCompute c0 t0 metricTTL k f).2.1 t2 metricTTL k g).2.2 = true ∧
    (getOrCompute (getOrCompute c0 t0 metricTTL k f).2.1 t2 metricTTL k g).1 = g () ∧
    ((getOrCompute (getOrCompute c0 t0 metricTTL k f).2.1 t2 metricTTL k g).2.1).entries k =
      some (t2, g ()) := by
  have hfirst : getOrCompute c0 t0 metricTTL k f =
      (f (), ⟨fun k2 => if k2 = k then some (t0, f ()) else c0.entries k2⟩, true) := by
    unfold getOrCompute
    rw [hmiss]
  rw [hfirst]
  have hlook : (⟨fun k2 => if k2 = k then some (t0, f ()) else c0.entries k2⟩ :
      CacheState K V).entries k = some (t0, f ()) := by
    simp
  have hsecond : getOrCompute
      (⟨fun k2 => if k2 = k then some (t0, f ()) else c0.entries k2⟩ : CacheState K V)
      t1 metricTTL k f =
      (f (), ⟨fun k2 => if k2 = k then some (t0, f ()) else c0.entries k2⟩, false) := by
    unfold getOrCompute
    rw [hlook]
    dsimp only
    rw [if_pos h1]
  have hthird : getOrCompute
      (⟨fun k2 => if k2 = k then some (t0, f ()) else c0.entries k2⟩ : CacheState K V)
      t2 metricTTL k g =
      (g (), ⟨fun k2 => if k2 = k then some (t2, g ())
        else if k2 = k then some (t0, f ()) else c0.entries k2⟩, true) := by
    unfold getOrCompute
    rw [hlook]
    dsimp only
    rw [if_neg (Nat.not_lt.mpr h2)]
  rw [hsecond, hthird]
  refine ⟨rfl, rfl, rfl, rfl, rfl, ?_⟩
  simp

/-- C5 witness: the TTL scenario at key 0 over natural-number values, with
the second call at time 10 and the third at time 3600. -/
theorem cache_ttl_compute_once_witness :
    ((⟨fun _ => Option.none⟩ : CacheState Nat Nat).entries 0 = Option.none ∧
      10 - 0 < metricTTL ∧ metricTTL ≤ 3600 - 0) ∧
    ((getOrCompute (⟨fun _ => Option.none⟩ : CacheState Nat Nat) 0 metricTTL 0
        (fun _ => 41)).1 = 41 ∧
      (getOrCompute (⟨fun _ => Option.none⟩ : CacheState Nat Nat) 0 metricTTL 0
        (fun _ => 41)).2.2 = true ∧
      getOrCompute (getOrCompute (⟨fun _ => Option.none⟩ : CacheState Nat Nat) 0
          metricTTL 0 (fun _ => 41)).2.1 10 metricTTL 0 (fun _ => 41) =
        (41, (getOrCompute (⟨fun _ => Option.none⟩ : CacheState Nat Nat) 0
          metricTTL 0 (fun _ => 41)).2.1, false) ∧
      (getOrCompute (getOrCompute (⟨fun _ => Option.none⟩ : CacheState Nat Nat) 0
          metricTTL 0 (fun _ => 41)).2.1 3600 metricTTL 0 (fun _ => 42)).2.2 = true ∧
      (getOrCompute (getOrCompute (⟨fun _ => Option.none⟩ : CacheState Nat Nat) 0
          metricTTL 0 (fun _ => 41)).2.1 3600 metricTTL 0 (fun _ => 42)).1 = 42 ∧
      ((getOrCompute (getOrCompute (⟨fun _ => Option.none⟩ : CacheState Nat Nat) 0
          metricTTL 0 (fun _ => 41)).2.1 3600 metricTTL 0 (fun _ => 42)).2.1).entries 0 =
        some (3600, 42)) := by
  have hm : (⟨fun _ => Option.none⟩ : CacheState Nat Nat).entries 0 = Option.none := rfl
  have h1 : 10 - 0 < metricTTL := by decide
  have h2 : metricTTL ≤ 3600 - 0 := by decide
  exact ⟨⟨hm, h1, h2⟩,
    cache_ttl_compute_once (⟨fun _ => Option.none⟩ : CacheState Nat Nat) 0 0 10 3600
      (fun _ => 41) (fun _ => 42) hm h1 h2⟩

/-- C9 (counterexample): the claim that the numeric normalizer preserves
column names, order and count for every input table is false: on a table
with two columns both named "a", the `to_dict('list')` round-trip (a python
dict) collapses the duplicates, so `_convert_numeric_columns` returns one
column where the input had two. -/
theorem convert_frame_duplicate_names_cex :
    (convert_numeric_columns exDupDF).cols.map Prod.fst ≠
      exDupDF.cols.map Prod.fst ∧
    (convert_numeric_columns exDupDF).cols.length ≠ exDupDF.cols.length := by
  decide

/-- C9 (amended): on a well-formed table with distinct column names, the numeric
normalizer preserves the list of column names (hence their set and order)
and every column's cell count, returns a native numeric column's cells
unchanged, and leaves an object column in which no value parses as a number
with cells equal to the input's up to the null representation (NaN/None). -/
theorem convert_numeric_columns_frame (df : DF)
    (hnd : (df.cols.map Prod.fst).Nodup) (hwf : WF df) :
    (convert_numeric_columns df).cols.map Prod.fst = df.cols.map Prod.fst ∧
    List.Forall₂
      (fun (p q : String × Col) =>
        q.2.cells.length = p.2.cells.length ∧
        (p.2.numericDtype = true → q.2.cells = p.2.cells) ∧
        (p.2.numericDtype = false → p.2.cells.any parses = false →
          List.Forall₂ (fun a b => cellEquiv a b = true) p.2.cells q.2.cells))
      df.cols (convert_numeric_columns df).cols := by
  rw [convert_eq_of_nodup df hnd]
  constructor
  · show (df.cols.map fun p => (p.1, colNorm p.2.cells)).map Prod.fst = _
    rw [List.map_map]
    rfl
  · show List.Forall₂ _ df.cols (df.cols.map fun p => (p.1, colNorm p.2.cells))
    rw [List.forall₂_map_right_iff, List.forall₂_same]
    intro p hp
    refine ⟨colNorm_cells_length p.2.cells, ?_, ?_⟩
    · intro hnum
      exact colNorm_numeric p.2.cells (hwf p hp hnum)
    · intro _ hnp
      exact colNorm_no_parse_equiv p.2.cells hnp

/-- C9 witness: the frame property evaluated on `exFrameDF`. -/
theorem convert_numeric_columns_frame_witness :
    ((exFrameDF.cols.map Prod.fst).Nodup ∧ WF exFrameDF) ∧
    ((convert_numeric_columns exFrameDF).cols.map Prod.fst =
        exFrameDF.cols.map Prod.fst ∧
      List.Forall₂
        (fun (p q : String × Col) =>
          q.2.cells.length = p.2.cells.length ∧
          (p.2.numericDtype = true → q.2.cells = p.2.cells) ∧
          (p.2.numericDtype = false → p.2.cells.any parses = false →
            List.Forall₂ (fun a b => cellEquiv a b = true) p.2.cells q.2.cells))
        exFrameDF.cols (convert_numeric_columns exFrameDF).cols) := by
  have hnd : (exFrameDF.cols.map Prod.fst).Nodup := by decide
  have hwf : WF exFrameDF := by decide
  exact ⟨⟨hnd, hwf⟩, convert_numeric_columns_frame exFrameDF hnd hwf⟩

/-- C10 (amended): on a well-formed table with distinct column names, the
two normalizer implementations agree up to the null representation: same
column names in the same order, and columnwise cells pointwise equal up to
identifying NaN with None (exact DataFrame equality can fail, as the
counterexample's all-null NaN column shows: the data-layer round-trip turns
it into a numeric column). -/
theorem normalizers_agree_up_to_null (df : DF)
    (hnd : (df.cols.map Prod.fst).Nodup) (hwf : WF df) :
    (convert_numeric_columns df).cols.map Prod.fst =
      (ensure_numeric_columns df).cols.map Prod.fst ∧
    List.Forall₂
      (fun (p q : String × Col) =>
        p.1 = q.1 ∧
        List.Forall₂ (fun a b => cellEquiv a b = true) p.2.cells q.2.cells)
      (convert_numeric_columns df).cols (ensure_numeric_columns df).cols := by
  rw [convert_eq_of_nodup df hnd]
  unfold ensure_numeric_columns
  constructor
  · show (df.cols.map fun p => (p.1, colNorm p.2.cells)).map Prod.fst =
      (df.cols.map fun p => (p.1, convertCol p.2)).map Prod.fst
    rw [List.map_map, List.map_map]
    rfl
  · show List.Forall₂ _ (df.cols.map fun p => (p.1, colNorm p.2.cells))
      (df.cols.map fun p => (p.1, convertCol p.2))
    rw [List.forall₂_map_left_iff, List.forall₂_map_right_iff, List.forall₂_same]
    intro p hp
    exact ⟨rfl, colNorm_vs_convertCol p.2 (hwf p hp)⟩

/-- C10 witness: the up-to-null agreement evaluated on `exFrameDF`. -/
theorem normalizers_agree_up_to_null_witness :
    ((exFrameDF.cols.map Prod.fst).Nodup ∧ WF exFrameDF) ∧
    ((convert_numeric_columns exFrameDF).cols.map Prod.fst =
        (ensure_numeric_columns exFrameDF).cols.map Prod.fst ∧
      List.Forall₂
        (fun (p q : String × Col) =>
          p.1 = q.1 ∧
          List.Forall₂ (fun a b => cellEquiv a b = true) p.2.cells q.2.cells)
        (convert_numeric_columns exFrameDF).cols
        (ensure_numeric_columns exFrameDF).cols) := by
  have hnd : (exFrameDF.cols.map Prod.fst).Nodup := by decide
  have hwf : WF exFrameDF := by decide
  exact ⟨⟨hnd, hwf⟩, normalizers_agree_up_to_null exFrameDF hnd hwf⟩


end Spec2Proof
